import Mathlib

/-!
Shallow embedding of the PICASO-series display driver core (`oled.cpp`,
class `PGD`).  Serial output is modelled as the list of bytes (Nat < 256)
handed to `port.Write`, in order; `port.Write` itself is modelled as always
succeeding, and the device's single-byte answers are supplied as explicit
parameters (`WaitResult` for each `waitACKNACK` call, raw byte lists for
data reads).  Machine bytes are `Nat` with explicit `% 256` masking exactly
where the source masks (`& 0xff`); `uchar`-typed parameters are quantified
over `Fin 256` in the theorems instead.
-/

set_option maxRecDepth 8192

namespace OledSpec

/-- Readiness states of the controller: LCD_INACTIVE, LCD_IDLE, LCD_BUSY. -/
inductive LCDState
  | inactive
  | idle
  | busy
deriving DecidableEq, Repr, Fintype

/-- Deferred-command tags (the PGDCMD values the worker distinguishes);
`PG_OTHER` stands for every further enum value, which the worker handles
through its `default` branch. -/
inductive PGDCMD
  | PG_NONE
  | PG_SLEEP
  | PG_TOUCH_WAIT
  | PG_TOUCH_DATA
  | PG_OTHER
deriving DecidableEq, Repr, Fintype

/-- Outcome of one `waitACKNACK` call, as seen from the device side:
an ACK byte (0x06), a NACK byte (0x15), expiry of the timeout with
neither, or an I/O error from the port. -/
inductive WaitResult
  | ack
  | nack
  | timeout
  | ioerr
deriving DecidableEq, Repr, Fintype

/-- Return code of `PGD::waitACKNACK`: 0 on ACK, 1 on NACK, 2 on timeout,
-1 on I/O error. -/
def waitACKNACK : WaitResult → Int
  | .ack => 0
  | .nack => 1
  | .timeout => 2
  | .ioerr => -1

/-- High byte of a 16-bit argument, as the source computes it:
`(v >> 8) & 0xff`. -/
def hi (v : Nat) : Nat := (v >>> 8) % 256

/-- Low byte of a 16-bit argument, as the source computes it: `v & 0xff`. -/
def lo (v : Nat) : Nat := v % 256

/-- PGD::Rectangle.  Frames `'r'` (0x72) followed by x1, y1, x2, y2, color
as big-endian u16, writes the 11 bytes, then waits for ACK/NACK (100 ms).
Returns the return code and the bytes written. -/
def Rectangle (state : LCDState) (x1 y1 x2 y2 color : Nat)
    (resp : WaitResult) : Int × List Nat :=
  if state = .inactive then (-1, [])
  else if state = .busy then (-1, [])
  else
    let cmd := [0x72, hi x1, lo x1, hi y1, lo y1, hi x2, lo x2,
                hi y2, lo y2, hi color, lo color]
    (waitACKNACK resp, cmd)

/-- PGD::convertRes.  Sparse mapping from a resolution code byte to a pixel
count; any unlisted code yields 0. -/
def convertRes (rescode : Nat) : Nat :=
  match rescode with
  | 0x22 => 220
  | 0x24 => 240
  | 0x28 => 128
  | 0x32 => 320
  | 0x60 => 160
  | 0x64 => 64
  | 0x76 => 176
  | 0x96 => 96
  | _ => 0

/-- The eight documented resolution codes. -/
def resCodes : List Nat := [0x22, 0x24, 0x28, 0x32, 0x60, 0x64, 0x76, 0x96]

/-- PGD::SetVolume.  The source rejects `value` when `3 < value < 8` or
`127 < value < 0xfd` (its `value < 0 || value > 0xff` test is vacuous for a
`uchar`); otherwise it writes `'v'` (0x76) and the value byte and waits for
ACK/NACK (100 ms). -/
def SetVolume (state : LCDState) (value : Nat) (resp : WaitResult) :
    Int × List Nat :=
  if state = .inactive then (-1, [])
  else if state = .busy then (-1, [])
  else if (3 < value ∧ value < 8) ∨ (127 < value ∧ value < 0xfd) then (-1, [])
  else (waitACKNACK resp, [0x76, value])

/-- PGD::Suspend.  Rejects options with bit 4 (0x10) set, and the
combination `(options & 0x2f) == 0x22` (wake-on-touch with touch off);
otherwise writes `'Z'` (0x5a), options, duration and waits for ACK/NACK
(100 ms).  On timeout with a wake condition in the low nibble the deferred
command PG_SLEEP is recorded and the state goes Busy; the third component
is the resulting readiness state. -/
def Suspend (state : LCDState) (options duration : Nat)
    (resp : WaitResult) : Int × List Nat × LCDState :=
  if state = .inactive then (-1, [], state)
  else if state = .busy then (-1, [], state)
  else if options &&& 0x10 ≠ 0 then (-1, [], state)
  else if options &&& 0x2f = 0x22 then (-1, [], state)
  else
    let cmd := [0x5a, options, duration]
    match resp with
    | .ack => (0, cmd, state)
    | .nack => (1, cmd, state)
    | .timeout => (2, cmd, if options &&& 0x0f ≠ 0 then LCDState.busy else state)
    | .ioerr => (-1, cmd, state)

/-- PGD::ShowString.  `data` is the C string argument: `Option.none` models a
NULL pointer (rejected with -1); `some s` carries the NUL-free byte content.
An empty string returns 0 with no bytes written; otherwise at most 256
characters are framed after `'s'` (0x73), col, row, font and the big-endian
color, with a terminating NUL, and ACK/NACK is awaited (400 ms). -/
def ShowString (state : LCDState) (col row font color : Nat)
    (data : Option (List Nat)) (resp : WaitResult) : Int × List Nat :=
  if state = .inactive then (-1, [])
  else if state = .busy then (-1, [])
  else
    match data with
    | Option.none => (-1, [])
    | some s =>
      if s.length = 0 then (0, [])
      else
        let s := s.take 256
        (waitACKNACK resp,
         [0x73, col % 256, row % 256, font % 256, hi color, lo color] ++ s ++ [0])

/-- PGD::ScaleString.  Same conventions as `ShowString`; frames `'S'` (0x53),
x and y as big-endian u16, font, color, width, height, the text and a NUL,
then awaits ACK/NACK (5000 ms). -/
def ScaleString (state : LCDState) (x y font color width height : Nat)
    (data : Option (List Nat)) (resp : WaitResult) : Int × List Nat :=
  if state = .inactive then (-1, [])
  else if state = .busy then (-1, [])
  else
    match data with
    | Option.none => (-1, [])
    | some s =>
      if s.length = 0 then (0, [])
      else
        let s := s.take 256
        (waitACKNACK resp,
         [0x53, hi x, lo x, hi y, lo y, font % 256, hi color, lo color,
          width % 256, height % 256] ++ s ++ [0])

/-- PGD::Button.  Same conventions as `ShowString`; frames `'b'` (0x62), the
pressed flag, x, y, button color, font, text color, the two multipliers,
the text and a NUL, then awaits ACK/NACK (2000 ms). -/
def Button (state : LCDState) (pressed : Bool) (x y bcolor font tcolor xmul ymul : Nat)
    (text : Option (List Nat)) (resp : WaitResult) : Int × List Nat :=
  if state = .inactive then (-1, [])
  else if state = .busy then (-1, [])
  else
    match text with
    | Option.none => (-1, [])
    | some s =>
      if s.length = 0 then (0, [])
      else
        let s := s.take 256
        (waitACKNACK resp,
         [0x62, if pressed then 1 else 0, hi x, lo x, hi y, lo y,
          hi bcolor, lo bcolor, font % 256, hi tcolor, lo tcolor,
          xmul % 256, ymul % 256] ++ s ++ [0])

/-- C5: for Rectangle(x1=10, y1=20, x2=100, y2=200, color=0xF800) in the
Idle state, the bytes written to the serial channel are exactly
72 00 0A 00 14 00 64 00 C8 F8 00, whatever the device then answers. -/
theorem rectangle_frame_bytes :
    ∀ r : WaitResult,
      (Rectangle .idle 10 20 100 200 0xF800 r).2 =
        [0x72, 0x00, 0x0A, 0x00, 0x14, 0x00, 0x64, 0x00, 0xC8, 0xF8, 0x00] :=
  fun _ => rfl

/-- C6: convertRes maps each of the eight documented codes to its documented
pixel count and every other byte to 0. -/
theorem convertRes_mapping :
    convertRes 0x22 = 220 ∧ convertRes 0x24 = 240 ∧ convertRes 0x28 = 128 ∧
    convertRes 0x32 = 320 ∧ convertRes 0x60 = 160 ∧ convertRes 0x64 = 64 ∧
    convertRes 0x76 = 176 ∧ convertRes 0x96 = 96 ∧
    ∀ b : Fin 256, b.val ∉ resCodes → convertRes b.val = 0 := by
  decide

/-- Witness for C6 at the concrete undocumented code 0x23. -/
theorem convertRes_mapping_witness : convertRes 0x23 = 0 := by
  have h := convertRes_mapping
  exact h.2.2.2.2.2.2.2.2 ⟨0x23, by decide⟩ (by decide)

/-- C7: SetVolume returns -1 with no bytes written exactly when the value
lies outside the sparse valid set 0..3, 8..127, 253..255; for every value
inside the set the two bytes 'v', value are written. -/
theorem setVolume_validation :
    ∀ v : Fin 256, ∀ r : WaitResult,
      (¬ (v.val ≤ 3 ∨ (8 ≤ v.val ∧ v.val ≤ 127) ∨ 253 ≤ v.val) ↔
        SetVolume .idle v.val r = (-1, [])) ∧
      ((v.val ≤ 3 ∨ (8 ≤ v.val ∧ v.val ≤ 127) ∨ 253 ≤ v.val) →
        (SetVolume .idle v.val r).2 = [0x76, v.val]) := by
  decide

/-- Witness for C7: value 5 (inside the forbidden gap 4..7) is rejected with
no bytes; value 100 is framed as 'v', 100. -/
theorem setVolume_validation_witness :
    SetVolume .idle 5 .ack = (-1, []) ∧
    (SetVolume .idle 100 .ack).2 = [0x76, 100] :=
  ⟨(setVolume_validation ⟨5, by decide⟩ .ack).1.mp (by decide),
   (setVolume_validation ⟨100, by decide⟩ .ack).2 (by decide)⟩

/-- C9: Suspend in the Idle state returns -1 and writes nothing whenever
options has bit 4 set or (options AND 0x2f) = 0x22; options passing both
checks are framed as 'Z', options, duration and written. -/
theorem suspend_validation (o d : Nat) (r : WaitResult) :
    ((o &&& 0x10 ≠ 0 ∨ o &&& 0x2f = 0x22) →
      Suspend .idle o d r = (-1, [], .idle)) ∧
    (o &&& 0x10 = 0 → o &&& 0x2f ≠ 0x22 →
      (Suspend .idle o d r).2.1 = [0x5a, o, d]) := by
  constructor
  · rintro (h | h)
    · simp [Suspend, h]
    · by_cases h10 : o &&& 0x10 ≠ 0
      · simp [Suspend, h10]
      · simp [Suspend, h10, h]
  · intro h1 h2
    cases r <;> simp [Suspend, h1, h2]

/-- Witness for C9: options 0x10 is rejected with no bytes; options 0x01
with duration 5 is framed and written. -/
theorem suspend_validation_witness :
    Suspend .idle 0x10 0 .ack = (-1, [], .idle) ∧
    (Suspend .idle 0x01 5 .ack).2.1 = [0x5a, 0x01, 5] :=
  ⟨(suspend_validation 0x10 0 .ack).1 (Or.inl (by decide)),
   (suspend_validation 0x01 5 .ack).2 (by decide) (by decide)⟩

/-- C10: ShowString, ScaleString and Button, called in the Idle state with a
non-null empty string, return 0 and write no bytes. -/
theorem empty_string_noop (col row font color x y width height : Nat)
    (pressed : Bool) (bcolor tcolor xmul ymul : Nat) (r : WaitResult) :
    ShowString .idle col row font color (some []) r = (0, []) ∧
    ScaleString .idle x y font color width height (some []) r = (0, []) ∧
    Button .idle pressed x y bcolor font tcolor xmul ymul (some []) r = (0, []) :=
  ⟨rfl, rfl, rfl⟩

/-- Mutable fields of a PGD object that the lifecycle routines touch.
`callback` is `Option.none` when no completion handler is registered;
otherwise it carries an abstract handler identifier (the source stores a
function pointer).  `hasCurdata` models whether `curdata` is non-NULL, and
`datain` holds the touch-data bytes received so far (`brcv` in the source
is its length). -/
structure PGDRec where
  state : LCDState
  curcmd : PGDCMD
  hasCurdata : Bool
  datain : List Nat
  halt : Bool
  portOpen : Bool
  callback : Option Nat
  usrobj : Nat
deriving DecidableEq, Repr

/-- PGD::SetCallback.  Guarded only by CHECK_BUSY: rejected with -1 when
Busy, otherwise the handler and user context are stored and 0 returned. -/
def SetCallback (s : PGDRec) (cb : Option Nat) (obj : Nat) : Int × PGDRec :=
  if s.state = .busy then (-1, s)
  else (0, { s with callback := cb, usrobj := obj })

/-- Externally visible actions of PGD::Close, in program order: a completion
callback invocation, the attempt to restore the default bit rate (a port
write), and the closing of the serial channel. -/
inductive Event
  | callbackEv (cmd : PGDCMD) (success : Bool)
  | setBaudEv
  | portCloseEv
deriving DecidableEq, Repr

/-- PGD::Close.  A no-op when the port is not open.  Otherwise: halt is set;
if Busy, the deferred command is cleared, the state moves to Idle and the
callback (when registered) fires with success=false; when the state is not
Inactive the default bit rate is restored; finally the port is closed and
the state becomes Inactive.  Returns the new record and the ordered list of
externally visible events. -/
def Close (s : PGDRec) : PGDRec × List Event :=
  if s.portOpen = false then (s, [])
  else
    let s1 : PGDRec := { s with halt := true }
    let busyEvts : List Event :=
      if s1.state = .busy then
        (if s1.callback.isSome then [Event.callbackEv s1.curcmd false] else [])
      else []
    let s2 : PGDRec :=
      if s1.state = .busy then
        { s1 with curcmd := .PG_NONE, hasCurdata := false, state := .idle }
      else s1
    let baudEvts : List Event := if s2.state ≠ .inactive then [Event.setBaudEv] else []
    ({ s2 with portOpen := false, state := .inactive },
     busyEvts ++ baudEvts ++ [Event.portCloseEv])

/-- Event a occurs strictly before event b in the list l. -/
def eventBefore (l : List Event) (a b : Event) : Prop :=
  ∃ i j, i < j ∧ l.get? i = some a ∧ l.get? j = some b

/-- C8 counterexample: called in the Inactive state, SetCallback succeeds
(returns 0) and replaces the stored handler, contradicting the claim that
it fails with the handler unchanged in every non-Idle state. -/
theorem setCallback_inactive_accepts :
    (SetCallback ⟨.inactive, .PG_NONE, false, [], false, false, Option.none, 0⟩
        (some 1) 2).1 = 0 ∧
    (SetCallback ⟨.inactive, .PG_NONE, false, [], false, false, Option.none, 0⟩
        (some 1) 2).2.callback = some 1 := by
  decide

/-- C8 amended: SetCallback stores the handler and user context and returns
0 in both the Idle and the Inactive state; only in the Busy state does it
fail with the stored handler unchanged. -/
theorem setCallback_busy_only (s : PGDRec) (cb : Option Nat) (obj : Nat) :
    (s.state = .busy → SetCallback s cb obj = (-1, s)) ∧
    (s.state ≠ .busy →
      SetCallback s cb obj = (0, { s with callback := cb, usrobj := obj })) := by
  constructor <;> intro h <;> simp [SetCallback, h]

/-- Witness for C8 amended: concrete Idle and Busy records. -/
theorem setCallback_busy_only_witness :
    SetCallback ⟨.idle, .PG_NONE, false, [], false, true, Option.none, 0⟩ (some 3) 4 =
      (0, ⟨.idle, .PG_NONE, false, [], false, true, some 3, 4⟩) ∧
    SetCallback ⟨.busy, .PG_SLEEP, false, [], false, true, some 7, 0⟩ (some 3) 4 =
      (-1, ⟨.busy, .PG_SLEEP, false, [], false, true, some 7, 0⟩) :=
  ⟨(setCallback_busy_only ⟨.idle, .PG_NONE, false, [], false, true, Option.none, 0⟩
      (some 3) 4).2 (by decide),
   (setCallback_busy_only ⟨.busy, .PG_SLEEP, false, [], false, true, some 7, 0⟩
      (some 3) 4).1 rfl⟩

/-- C3: when Close runs on an open port while the controller is Busy, the
resulting state is Inactive, and if a callback is registered it is invoked
with the outstanding command and success=false strictly before the serial
channel is closed. -/
theorem close_cancels (s : PGDRec) (hOpen : s.portOpen = true)
    (hBusy : s.state = .busy) :
    (Close s).1.state = .inactive ∧
    (s.callback.isSome = true →
      eventBefore (Close s).2 (Event.callbackEv s.curcmd false) Event.portCloseEv) := by
  constructor
  · simp [Close, hOpen]
  · intro hcb
    refine ⟨0, 2, by omega, ?_, ?_⟩ <;>
      simp [Close, hOpen, hBusy, hcb]

/-- Witness for C3: a concrete Busy record with an open port and a
registered handler. -/
theorem close_cancels_witness :
    (Close ⟨.busy, .PG_SLEEP, false, [], false, true, some 1, 0⟩).1.state = .inactive ∧
    eventBefore (Close ⟨.busy, .PG_SLEEP, false, [], false, true, some 1, 0⟩).2
      (Event.callbackEv .PG_SLEEP false) Event.portCloseEv :=
  ⟨(close_cancels ⟨.busy, .PG_SLEEP, false, [], false, true, some 1, 0⟩ rfl rfl).1,
   (close_cancels ⟨.busy, .PG_SLEEP, false, [], false, true, some 1, 0⟩ rfl rfl).2 rfl⟩

/-- Outcome of the worker's `port.Read` while collecting touch data: an I/O
error, or the bytes that arrived within the 100 ms budget (the empty list
models a read timeout). -/
inductive ReadResult
  | rerr
  | rbytes (bs : List Nat)
deriving DecidableEq, Repr

/-- Device-side input for one iteration of PGD::Process: the outcome of its
`waitACKNACK(200)` call and of its touch-data read. -/
structure Env where
  wait : WaitResult
  rdata : ReadResult
deriving DecidableEq, Repr

/-- Record of one completion-callback invocation: the command tag and
success flag passed to the handler, together with the deferred-command
field and readiness state of the controller at the instant of the call. -/
structure CbCall where
  cmd : PGDCMD
  success : Bool
  seenCmd : PGDCMD
  seenState : LCDState
deriving DecidableEq, Repr

/-- Invoke the registered callback (if any) on the already-updated record
s, mirroring `if (callback) callback(this, cmd, ok, usrobj)`. -/
def fireCb (s : PGDRec) (cmd : PGDCMD) (ok : Bool) : Option CbCall :=
  if s.callback.isSome then some ⟨cmd, ok, s.curcmd, s.state⟩ else Option.none

/-- Result of one iteration of PGD::Process: the new record, the callback
invocation it performed (if any), and its return value. -/
structure ProcOut where
  s : PGDRec
  cb : Option CbCall
  ret : Int
deriving DecidableEq, Repr

/-- PGD::Process, one iteration of the worker loop.  Returns -1 when halted;
sleeps when not Busy.  For PG_SLEEP and PG_TOUCH_WAIT it waits for ACK/NACK
(200 ms): ACK completes with success, NACK and I/O error complete with
failure, timeout leaves everything untouched.  For PG_TOUCH_DATA it tops up
the 4-byte buffer from the port (100 ms): an I/O error completes with
failure; when the fourth byte arrives it completes, with success exactly
when the caller's data pointer is non-NULL (the decoded u16 pair goes into
the caller's buffer, outside this record); otherwise the partial count is
kept and no callback fires.  PG_NONE while Busy and any other tag complete
with failure under tag PG_NONE.  Every completion clears `curcmd` and sets
the state to Idle before the callback is invoked. -/
def Process (s : PGDRec) (env : Env) : ProcOut :=
  if s.halt then ⟨s, Option.none, -1⟩
  else if s.state ≠ .busy then ⟨s, Option.none, 0⟩
  else
    match s.curcmd with
    | .PG_NONE =>
        let s1 : PGDRec := { s with state := .idle }
        ⟨s1, fireCb s1 .PG_NONE false, 0⟩
    | .PG_SLEEP =>
        match env.wait with
        | .timeout => ⟨s, Option.none, 0⟩
        | .ack =>
            let s1 : PGDRec := { s with curcmd := .PG_NONE, state := .idle }
            ⟨s1, fireCb s1 .PG_SLEEP true, 0⟩
        | .nack =>
            let s1 : PGDRec := { s with curcmd := .PG_NONE, state := .idle }
            ⟨s1, fireCb s1 .PG_SLEEP false, 0⟩
        | .ioerr =>
            let s1 : PGDRec := { s with curcmd := .PG_NONE, state := .idle }
            ⟨s1, fireCb s1 .PG_SLEEP false, 0⟩
    | .PG_TOUCH_WAIT =>
        match env.wait with
        | .timeout => ⟨s, Option.none, 0⟩
        | .ack =>
            let s1 : PGDRec := { s with curcmd := .PG_NONE, state := .idle }
            ⟨s1, fireCb s1 .PG_TOUCH_WAIT true, 0⟩
        | .nack =>
            let s1 : PGDRec := { s with curcmd := .PG_NONE, state := .idle }
            ⟨s1, fireCb s1 .PG_TOUCH_WAIT false, 0⟩
        | .ioerr =>
            let s1 : PGDRec := { s with curcmd := .PG_NONE, state := .idle }
            ⟨s1, fireCb s1 .PG_TOUCH_WAIT false, 0⟩
    | .PG_TOUCH_DATA =>
        match env.rdata with
        | .rerr =>
            let s1 : PGDRec := { s with curcmd := .PG_NONE, state := .idle }
            ⟨s1, fireCb s1 .PG_TOUCH_DATA false, 0⟩
        | .rbytes bs =>
            let got := bs.take (4 - s.datain.length)
            let d1 := s.datain ++ got
            if got.length ≠ 0 ∧ d1.length = 4 then
              if s.hasCurdata then
                let s1 : PGDRec :=
                  { s with datain := d1, curcmd := .PG_NONE, state := .idle }
                ⟨s1, fireCb s1 .PG_TOUCH_DATA true, 0⟩
              else
                let s1 : PGDRec :=
                  { s with datain := d1, curcmd := .PG_NONE, state := .idle }
                ⟨s1, fireCb s1 .PG_TOUCH_DATA false, 0⟩
            else ⟨{ s with datain := d1 }, Option.none, 0⟩
    | .PG_OTHER =>
        let s1 : PGDRec := { s with curcmd := .PG_NONE, state := .idle }
        ⟨s1, fireCb s1 .PG_NONE false, 0⟩

/-- Helper: any callback invocation produced by `fireCb` carries the record
fields of the record it was fired on. -/
theorem fireCb_seen {s : PGDRec} {cmd : PGDCMD} {ok : Bool} {c : CbCall}
    (h : fireCb s cmd ok = some c) :
    c.seenCmd = s.curcmd ∧ c.seenState = s.state := by
  unfold fireCb at h
  split at h
  · have h2 := Option.some.inj h
    subst h2
    exact ⟨rfl, rfl⟩
  · exact absurd h (by simp)

/-- C4: every callback the worker fires sees the deferred-command record
already cleared and the state already Idle; a timeout iteration of the
ACK/NACK wait leaves the record untouched and fires no callback; and a
touch-data iteration that has not yet collected all 4 bytes keeps the
deferred command and the Busy state and fires no callback. -/
theorem process_completion (s : PGDRec) (env : Env) :
    (∀ c, (Process s env).cb = some c →
      c.seenCmd = .PG_NONE ∧ c.seenState = .idle) ∧
    (s.halt = false → s.state = .busy →
      (s.curcmd = .PG_SLEEP ∨ s.curcmd = .PG_TOUCH_WAIT) →
      env.wait = .timeout →
      (Process s env).s = s ∧ (Process s env).cb = Option.none) ∧
    (s.halt = false → s.state = .busy → s.curcmd = .PG_TOUCH_DATA →
      ∀ bs, env.rdata = .rbytes bs →
      s.datain.length + (bs.take (4 - s.datain.length)).length < 4 →
      (Process s env).s.curcmd = s.curcmd ∧
      (Process s env).s.state = s.state ∧
      (Process s env).cb = Option.none) := by
  refine ⟨?_, ?_, ?_⟩
  · intro c hc
    by_cases hh : s.halt = true
    · simp [Process, hh] at hc
    · by_cases hb : s.state = .busy
      · rcases hcmd : s.curcmd with _ | _ | _ | _ | _
        · simp [Process, hh, hb, hcmd] at hc
          exact fireCb_seen hc
        · rcases hw : env.wait with _ | _ | _ | _ <;>
            simp [Process, hh, hb, hcmd, hw] at hc <;>
            exact fireCb_seen hc
        · rcases hw : env.wait with _ | _ | _ | _ <;>
            simp [Process, hh, hb, hcmd, hw] at hc <;>
            exact fireCb_seen hc
        · rcases hr : env.rdata with _ | bs
          · simp [Process, hh, hb, hcmd, hr] at hc
            exact fireCb_seen hc
          · simp only [Process, hh, hb, hcmd, hr] at hc
            split at hc
            · simp at hc
            · split at hc
              · simp at hc
              · split at hc
                · split at hc
                  · exact fireCb_seen hc
                  · exact fireCb_seen hc
                · simp at hc
        · simp [Process, hh, hb, hcmd] at hc
          exact fireCb_seen hc
      · simp [Process, hh, hb] at hc
  · intro hh hb hcmd hw
    rcases hcmd with hcmd | hcmd <;> simp [Process, hh, hb, hcmd, hw]
  · intro hh hb hcmd bs hr hlen
    have hcond : ¬ ((bs.take (4 - s.datain.length)).length ≠ 0 ∧
        (s.datain ++ bs.take (4 - s.datain.length)).length = 4) := by
      rintro ⟨-, h4⟩
      rw [List.length_append] at h4
      omega
    have hP : Process s env =
        ⟨{ s with datain := s.datain ++ bs.take (4 - s.datain.length) },
         Option.none, 0⟩ := by
      unfold Process
      rw [if_neg (by simp [hh]), if_neg (by simp [hb]), hcmd, hr]
      exact if_neg hcond
    rw [hP]
    exact ⟨rfl, rfl, rfl⟩

/-- Witness for C4: a Busy PG_SLEEP record with a timeout answer is left
unchanged, with no callback, and the completion conjunct holds. -/
theorem process_completion_witness :
    (∀ c, (Process ⟨.busy, .PG_SLEEP, false, [], false, true, some 1, 0⟩
        ⟨.timeout, .rbytes []⟩).cb = some c →
      c.seenCmd = .PG_NONE ∧ c.seenState = .idle) ∧
    (Process ⟨.busy, .PG_SLEEP, false, [], false, true, some 1, 0⟩
        ⟨.timeout, .rbytes []⟩).s =
      ⟨.busy, .PG_SLEEP, false, [], false, true, some 1, 0⟩ ∧
    (Process ⟨.busy, .PG_SLEEP, false, [], false, true, some 1, 0⟩
        ⟨.timeout, .rbytes []⟩).cb = Option.none :=
  ⟨(process_completion ⟨.busy, .PG_SLEEP, false, [], false, true, some 1, 0⟩
      ⟨.timeout, .rbytes []⟩).1,
   (process_completion ⟨.busy, .PG_SLEEP, false, [], false, true, some 1, 0⟩
      ⟨.timeout, .rbytes []⟩).2.1 rfl rfl (Or.inl rfl) rfl⟩

/-- Block-transmission loop of PGD::SDWriteFileFAT.  `rem` is the number of
blocks still to send, `i` the index of the next block, `out` the bytes
written so far; `acks i` is the device's answer to the i-th
`waitACKNACK(1000)` call (one per block, plus a final one after the loop).
Before each block an ACK is awaited: a NACK before the first block returns
1, a NACK later returns -2, a timeout or I/O error returns -1; on ACK the
next block of `dp` is written (50 bytes, or `nresid` for a shorter last
block).  After all blocks the return value is that of one more
`waitACKNACK(1000)`. -/
def writeBlocks (dp : List Nat) (nresid : Nat) (acks : Nat → WaitResult) :
    Nat → Nat → List Nat → Int × List Nat
  | 0, i, out => (waitACKNACK (acks i), out)
  | rem + 1, i, out =>
    match acks i with
    | .ack =>
        let bs := if rem = 0 ∧ nresid ≠ 0 then nresid else 50
        writeBlocks dp nresid acks rem (i + 1) (out ++ (dp.drop (i * 50)).take bs)
    | .nack => if i = 0 then (1, out) else (-2, out)
    | .timeout => (-1, out)
    | .ioerr => (-1, out)

/-- PGD::SDWriteFileFAT.  `data` is the caller's buffer (its length plays
the role of the `size` argument) and `filename` the C string's bytes.
After the state and argument checks the source fills a 24-byte command
buffer `cmd` with '@', 't', the handshake byte (0 for sizes up to 100, else
50, OR 0x80 when appending), the NUL-terminated filename and the 4-byte
big-endian size — but it never passes `cmd` to `port.Write`; the only bytes
ever written are the data blocks of `writeBlocks`.  The `header` binding
below reproduces that dead buffer. -/
def SDWriteFileFAT (state : LCDState) (data : List Nat) (filename : List Nat)
    (append : Bool) (acks : Nat → WaitResult) : Int × List Nat :=
  if state = .inactive then (-1, [])
  else if state = .busy then (-1, [])
  else if filename.length < 1 ∨ 12 < filename.length then (-1, [])
  else
    let size := data.length
    let hs : Nat := (if size ≤ 100 then 0 else 50) + (if append then 0x80 else 0)
    let header : List Nat :=
      [0x40, 0x74, hs] ++ filename ++ [0] ++
      [(size >>> 24) % 256, (size >>> 16) % 256, (size >>> 8) % 256, size % 256]
    let nblk := if size ≤ 100 then 1 else size / 50 + (if size % 50 = 0 then 0 else 1)
    let nresid := if size ≤ 100 then size else size % 50
    let _ := header
    writeBlocks data nresid acks nblk 0 []

/-- Byte-scanning loop of PGD::SDListDirFAT over the received stream.
`cur` is the entry being accumulated, `dir` the entries collected.  The
source's branch condition is reproduced verbatim: an entry is terminated
whenever the byte is LF, ACK **or anything other than NACK** (the source
has `!=` where `==` was intended), and a NACK byte is instead appended to
the current entry.  ACK returns the entry count, NACK inside the branch
returns -1 (unreachable), and exhaustion of the stream models the read
timeout (-1). -/
def listLoop : List Nat → List (List Nat) → List Nat → Int × List (List Nat)
  | [], dir, _ => (-1, dir)
  | b :: rest, dir, cur =>
    if b = 0x0a ∨ b = 0x06 ∨ b ≠ 0x15 then
      let dir1 := if cur.length ≠ 0 then dir ++ [cur] else dir
      if b = 0x06 then ((dir1.length : Int), dir1)
      else if b = 0x15 then (-1, dir1)
      else listLoop rest dir1 []
    else listLoop rest dir (cur ++ [b])

/-- PGD::SDListDirFAT.  Frames '@', 'd', the pattern and a NUL, writes it,
then scans the reply stream with `listLoop`.  `rx` is the byte stream the
device sends back.  Returns the return code, the bytes written, and the
directory entries collected. -/
def SDListDirFAT (state : LCDState) (pattern : List Nat) (rx : List Nat) :
    Int × List Nat × List (List Nat) :=
  if state = .inactive then (-1, [], [])
  else if state = .busy then (-1, [], [])
  else if pattern.length < 1 ∨ 12 < pattern.length then (-1, [], [])
  else
    let sent := [0x40, 0x64] ++ pattern ++ [0]
    let r := listLoop rx [] []
    (r.1, sent, r.2)

/-- C1 is a code bug: for a fully valid call (3 data bytes, filename "a",
no append, device ACKing every handshake) the bytes sent to the device are
just the raw data — the '@','t' command header the source builds is never
written, so the wire stream does not begin with the opcode. -/
theorem sdWriteFileFAT_header_never_sent :
    (SDWriteFileFAT .idle [1, 2, 3] [0x61] false (fun _ => WaitResult.ack)) =
      (0, [1, 2, 3]) ∧
    (SDWriteFileFAT .idle [1, 2, 3] [0x61] false
      (fun _ => WaitResult.ack)).2.take 2 ≠ [0x40, 0x74] := by
  constructor
  · rfl
  · decide

/-- C2 is a code bug: with pattern "*" and reply stream 'A', 'B', LF, ACK
the listing returns 0 entries — the inverted condition makes every
non-NACK byte terminate the entry being built, so the two name bytes are
dropped instead of accumulating into the entry "AB". -/
theorem sdListDirFAT_drops_entries :
    SDListDirFAT .idle [0x2a] [0x41, 0x42, 0x0a, 0x06] =
      (0, [0x40, 0x64, 0x2a, 0], []) := by
  rfl

end OledSpec
